import Mathlib

/-!
Verification development for the cleartext-JWS ("ct-jws") sign/verify core:
`src/lib/ct-jws/sign.js` (JWSSigner / createSign) and the verifier module
(JWSVerifier / getAlgKey / createVerify).

The JavaScript data is shallowly embedded: JSON values are `JVal` with
insertion-ordered object fields (matching `JSON.stringify` enumeration
order), JS object property update/append is `jset`, lodash `omit` is
`jomit`, lodash deep `merge` is `mergeObjs`, and the external collaborators
declared out of scope by the design (the base64url codec, the algorithm
allow-list matcher, the JWK key / keystore capabilities) are modelled as
simple functions or function-valued structure fields.
-/

/-- A JSON value.  Object fields are kept in insertion order, the order
`JSON.stringify` serializes them in. -/
inductive JVal where
  | null
  | bool (b : Bool)
  | num (n : Int)
  | str (s : String)
  | arr (xs : List JVal)
  | obj (fs : List (String × JVal))
deriving Repr

mutual

def jvalDecEq : (a b : JVal) → Decidable (a = b)
  | .null, .null => .isTrue rfl
  | .null, .bool _ => .isFalse (fun h => nomatch h)
  | .null, .num _ => .isFalse (fun h => nomatch h)
  | .null, .str _ => .isFalse (fun h => nomatch h)
  | .null, .arr _ => .isFalse (fun h => nomatch h)
  | .null, .obj _ => .isFalse (fun h => nomatch h)
  | .bool _, .null => .isFalse (fun h => nomatch h)
  | .bool a, .bool b =>
    if h : a = b then .isTrue (by rw [h]) else .isFalse (by simp [h])
  | .bool _, .num _ => .isFalse (fun h => nomatch h)
  | .bool _, .str _ => .isFalse (fun h => nomatch h)
  | .bool _, .arr _ => .isFalse (fun h => nomatch h)
  | .bool _, .obj _ => .isFalse (fun h => nomatch h)
  | .num _, .null => .isFalse (fun h => nomatch h)
  | .num _, .bool _ => .isFalse (fun h => nomatch h)
  | .num a, .num b =>
    if h : a = b then .isTrue (by rw [h]) else .isFalse (by simp [h])
  | .num _, .str _ => .isFalse (fun h => nomatch h)
  | .num _, .arr _ => .isFalse (fun h => nomatch h)
  | .num _, .obj _ => .isFalse (fun h => nomatch h)
  | .str _, .null => .isFalse (fun h => nomatch h)
  | .str _, .bool _ => .isFalse (fun h => nomatch h)
  | .str _, .num _ => .isFalse (fun h => nomatch h)
  | .str a, .str b =>
    if h : a = b then .isTrue (by rw [h]) else .isFalse (by simp [h])
  | .str _, .arr _ => .isFalse (fun h => nomatch h)
  | .str _, .obj _ => .isFalse (fun h => nomatch h)
  | .arr _, .null => .isFalse (fun h => nomatch h)
  | .arr _, .bool _ => .isFalse (fun h => nomatch h)
  | .arr _, .num _ => .isFalse (fun h => nomatch h)
  | .arr _, .str _ => .isFalse (fun h => nomatch h)
  | .arr a, .arr b =>
    match jvalDecEqItems a b with
    | .isTrue h => .isTrue (by rw [h])
    | .isFalse h => .isFalse (by simp [h])
  | .arr _, .obj _ => .isFalse (fun h => nomatch h)
  | .obj _, .null => .isFalse (fun h => nomatch h)
  | .obj _, .bool _ => .isFalse (fun h => nomatch h)
  | .obj _, .num _ => .isFalse (fun h => nomatch h)
  | .obj _, .str _ => .isFalse (fun h => nomatch h)
  | .obj _, .arr _ => .isFalse (fun h => nomatch h)
  | .obj a, .obj b =>
    match jvalDecEqFields a b with
    | .isTrue h => .isTrue (by rw [h])
    | .isFalse h => .isFalse (by simp [h])

def jvalDecEqItems : (a b : List JVal) → Decidable (a = b)
  | [], [] => .isTrue rfl
  | [], _ :: _ => .isFalse (fun h => nomatch h)
  | _ :: _, [] => .isFalse (fun h => nomatch h)
  | x :: xs, y :: ys =>
    match jvalDecEq x y with
    | .isTrue h1 =>
      match jvalDecEqItems xs ys with
      | .isTrue h2 => .isTrue (by rw [h1, h2])
      | .isFalse h2 => .isFalse (by simp [h2])
    | .isFalse h1 => .isFalse (by simp [h1])

def jvalDecEqFields : (a b : List (String × JVal)) → Decidable (a = b)
  | [], [] => .isTrue rfl
  | [], _ :: _ => .isFalse (fun h => nomatch h)
  | _ :: _, [] => .isFalse (fun h => nomatch h)
  | (k, x) :: xs, (k2, y) :: ys =>
    if hk : k = k2 then
      match jvalDecEq x y with
      | .isTrue h1 =>
        match jvalDecEqFields xs ys with
        | .isTrue h2 => .isTrue (by rw [hk, h1, h2])
        | .isFalse h2 => .isFalse (by simp [h2])
      | .isFalse h1 => .isFalse (by simp [h1])
    else .isFalse (by simp [hk])

end

instance : DecidableEq JVal := jvalDecEq

/-- Escape the characters of a string for JSON serialization (quote and
backslash). -/
def escapeChars : List Char → List Char
  | [] => []
  | c :: rest =>
    if c = '"' then '\\' :: '"' :: escapeChars rest
    else if c = '\\' then '\\' :: '\\' :: escapeChars rest
    else c :: escapeChars rest

/-- Escape a string for JSON serialization. -/
def jescape (s : String) : String := String.mk (escapeChars s.data)

mutual
/-- `JSON.stringify` with no spacing, fields in stored order. -/
def JVal.stringify : JVal → String
  | .null => "null"
  | .bool true => "true"
  | .bool false => "false"
  | .num n => toString n
  | .str s => "\"" ++ jescape s ++ "\""
  | .arr xs => "[" ++ stringifyItems xs ++ "]"
  | .obj fs => "\x7b" ++ stringifyFields fs ++ "\x7d"

def stringifyItems : List JVal → String
  | [] => ""
  | [x] => x.stringify
  | x :: xs => x.stringify ++ "," ++ stringifyItems xs

def stringifyFields : List (String × JVal) → String
  | [] => ""
  | [(k, v)] => "\"" ++ jescape k ++ "\":" ++ v.stringify
  | (k, v) :: fs => "\"" ++ jescape k ++ "\":" ++ v.stringify ++ "," ++ stringifyFields fs
end

/-- JS property read `o[k]` on an object's field list. -/
def jget : List (String × JVal) → String → Option JVal
  | [], _ => none
  | (k', v) :: rest, k => if k' = k then some v else jget rest k

/-- JS property write `o[k] = v`: update in place keeps the key's position,
a new key is appended at the end (the `JSON.stringify` order JS gives). -/
def jset : List (String × JVal) → String → JVal → List (String × JVal)
  | [], k, v => [(k, v)]
  | (k', v') :: rest, k, v =>
    if k' = k then (k, v) :: rest else (k', v') :: jset rest k v

/-- `Object.keys`. -/
def jkeys (fs : List (String × JVal)) : List String := fs.map Prod.fst

/-- lodash `omit(o, ks)`: drop the listed keys, keep field order. -/
def jomit (fs : List (String × JVal)) (ks : List String) : List (String × JVal) :=
  fs.filter (fun p => !(ks.contains p.1))

/-- JS truthiness of a value. -/
def JVal.truthy : JVal → Bool
  | .null => false
  | .bool b => b
  | .num n => n != 0
  | .str s => s ≠ ""
  | .arr _ => true
  | .obj _ => true

/-- JS strict equality `===` as it applies to resolved signatory header
values: primitives compare by value; object and array operands are
distinct references here (each signatory's header is rebuilt by lodash
`merge`, which clones nested plain objects and arrays), so `===` on them
is false. -/
def strictEq : JVal → JVal → Bool
  | .null, .null => true
  | .bool a, .bool b => a == b
  | .num a, .num b => a == b
  | .str a, .str b => a == b
  | _, _ => false

mutual
/-- lodash `merge` of a source value into a target value: plain objects
merge recursively, arrays merge index-wise, anything else is overridden
by the source. -/
def jmergePair : JVal → JVal → JVal
  | .obj a, .obj b => .obj (mergeObjs a b)
  | .arr a, .arr b => .arr (mergeArrs a b)
  | _, v => v

/-- lodash `merge(target, source)` on object field lists (value level). -/
def mergeObjs (a : List (String × JVal)) : List (String × JVal) → List (String × JVal)
  | [] => a
  | (k, v) :: rest =>
    match jget a k with
    | some av => mergeObjs (jset a k (jmergePair av v)) rest
    | none => mergeObjs (a ++ [(k, v)]) rest

/-- lodash `merge` on arrays: index-wise, the longer tail survives. -/
def mergeArrs : List JVal → List JVal → List JVal
  | a, [] => a
  | [], b => b
  | x :: xs, y :: ys => jmergePair x y :: mergeArrs xs ys
end

/-- Modelled from the spec: the base64url codec is an external collaborator
(out of scope, §1/§6 of the design); modelled as an injective tagging. -/
def b64urlEncode (s : String) : String := "b64." ++ s

/-- Modelled from the spec: lenient decode matching the codec's behavior on
strings (Node base64 decoding never throws on a string). -/
def b64urlDecode (s : String) : String :=
  if "b64.".data.isPrefixOf s.data then String.mk (s.data.drop 4) else s

/-- Split a string at commas. -/
def splitCommaAux : List Char → String → List String
  | [], cur => [cur]
  | c :: rest, cur =>
    if c = ',' then cur :: splitCommaAux rest "" else splitCommaAux rest (cur.push c)

/-- Split a string at commas. -/
def splitComma (s : String) : List String := splitCommaAux s.data ""

/-- Modelled from the spec: the algorithm allow-list matcher (`AlgConfig`,
an external collaborator, §6): the wildcard `"*"`, a single name, a
comma-delimited list, or an explicit sequence; `match(alg) -> bool`. -/
def algMatch (spec : JVal) (alg : String) : Bool :=
  match spec with
  | .str s => s = "*" || (splitComma s).contains alg
  | .arr xs => xs.contains (.str "*") || xs.contains (.str alg)
  | _ => false

/-- The external JWK key capability (§6): key type, signing algorithms,
public JSON representation, and the asynchronous sign/verify primitives
(`Except` models promise rejection). -/
structure Key where
  kty : String
  algs : List String
  toJSON : List (String × JVal)
  signFn : String → String → Except String String
  verifyFn : String → String → String → Except String Bool

/-- A resolved signatory: effective header plus the key. -/
structure Sig where
  header : List (String × JVal)
  key : Key

/-! ## Sign side: `src/lib/ct-jws/sign.js` -/

/-- `values.reduce((a, b) => a === b)` once the accumulator has become a JS
boolean: `boolean === value` is true iff the value is that same boolean. -/
def jsReduceChain (b : Bool) : List JVal → Bool
  | [] => b
  | v :: rest =>
    jsReduceChain (match v with | .bool b2 => b = b2 | _ => false) rest

/-- The whole `values.reduce((a, b) => a === b)` of sign.js line 74,
followed by the `if (...)` truthiness test: the first step compares the
first two values with `===`, every later step compares that boolean with
the next value. A single value is returned as-is and tested for
truthiness. -/
def jsAllEqChain : List JVal → Bool
  | [] => false
  | [v] => v.truthy
  | v :: w :: rest => jsReduceChain (strictEq v w) rest

/-- lodash `intersection(...keys)`: the members of the first list present
in every other list, in first-list order (key lists come from
`Object.keys`, so they are duplicate-free). -/
def intersectKeys : List (List String) → List String
  | [] => []
  | l :: ls => l.filter (fun k => ls.all (fun l2 => l2.contains k))

/-- One key of sign.js lines 72-77: the values of a common header key are
chain-reduced with `===` and, when that reduction is truthy, the first
value is stored at the global level. -/
def cghStep (headers : List (List (String × JVal))) (gh : List (String × JVal)) (k : String) :
    List (String × JVal) :=
  let values := headers.map (fun h => (jget h k).getD .null)
  if jsAllEqChain values then jset gh k (values.headD .null) else gh

/-- sign.js lines 66-80: the global-header set computed when the signer
count is not 1, folded over the keys common to all signer headers. -/
def computeGlobalHeaders (headers : List (List (String × JVal))) : List (String × JVal) :=
  (intersectKeys (headers.map jkeys)).foldl (cghStep headers) []

/-- A signatory's `reference` request: absent, an explicit boolean, or a
field name. -/
inductive RefArg where
  | auto
  | flag (b : Bool)
  | field (name : String)

/-- sign.js lines 209-237 (`createSign`, key-reference resolution of one
signatory): decide the reference kind, then embed key-identifying
material into the header; requesting full `jwk` embedding for a symmetric
(`oct`) key rejects with "cannot embed key" before anything is written
into the header. -/
def resolveReference (key : Key) (header : List (String × JVal)) (refArg : RefArg) :
    Except String (List (String × JVal)) :=
  let ref : Option String :=
    match refArg with
    | .auto =>
      if (["kid", "jku", "x5c", "x5t", "x5u"].any fun k => (jget header k).isSome)
      then none else some "kid"
    | .flag b => if b then some "kid" else none
    | .field s => some s
  match ref with
  | none => .ok header
  | some r =>
    let jwk := key.toJSON
    if r = "jwk" then
      if key.kty = "oct" then .error "cannot embed key"
      else .ok (jset header "jwk" (.obj jwk))
    else
      match jget jwk r with
      | some v => .ok (jset header r v)
      | none => .ok header

/-- `Promise.all` over the signatory resolutions (sign.js line 64): all
values, or the first rejection. -/
def seqSigs : List (Except String Sig) → Except String (List Sig)
  | [] => .ok []
  | .error e :: _ => .error e
  | .ok s :: rest => (seqSigs rest).map (fun l => s :: l)

/-- The reserved document field holding the signature block. -/
def csigField : String := "__cleartext_signature"

/-- sign.js line 93 for a single signatory: the serialized document state
with the reserved field aliased to the signer's full header (line 86). -/
def signSnapSingle (fs0 : List (String × JVal)) (header : List (String × JVal)) : JVal :=
  .obj (jset fs0 csigField (.obj header))

/-- `header.alg` as the string handed to the key capability. -/
def hdrAlg (header : List (String × JVal)) : String :=
  match jget header "alg" with
  | some (.str a) => a
  | _ => "undefined"

/-- State threaded through the multi-signer signing loop: the shared
`globalHeaders` object (aliased as `data.__cleartext_signature` at line
88, so the `signers` entry written at line 89 persists into later
iterations), the document snapshots serialized so far, the `key.sign`
invocations made so far, and the per-signer stored headers (or the first
signing rejection). -/
structure SignLoopAcc where
  gh : List (String × JVal)
  snaps : List JVal
  calls : List (String × String)
  stored : Except String (List (List (String × JVal)))

/-- One iteration of sign.js lines 84-100 in the multi-signer case:
line 88 aliases the reserved field to the shared global-header object,
line 89 writes `signers = [omit(header, keys-before)]` into it, line 92
recomputes the persisted header with `omit(header, keys-after)` (which by
then include "signers"), line 93 serializes the document, line 94 invokes
`key.sign(alg, tbs, header)`. -/
def signMultiStep (fs0 : List (String × JVal)) (s : Sig) (acc : SignLoopAcc) : SignLoopAcc :=
  let keysBefore := jkeys acc.gh
  let inner := jomit s.header keysBefore
  let gh1 := jset acc.gh "signers" (.arr [.obj inner])
  let headers := jomit s.header (jkeys gh1)
  let snap : JVal := .obj (jset fs0 csigField (.obj gh1))
  let alg := hdrAlg s.header
  let tbs := snap.stringify
  let res := s.key.signFn alg tbs
  { gh := gh1
    snaps := acc.snaps ++ [snap]
    calls := acc.calls ++ [(alg, tbs)]
    stored :=
      match acc.stored, res with
      | .error e, _ => .error e
      | .ok _, .error e => .error e
      | .ok l, .ok mac => .ok (l ++ [jset headers "signature" (.str (b64urlEncode mac))]) }

/-- The multi-signer loop over all resolved signatories, in order. -/
def signMultiLoop (fs0 : List (String × JVal)) : List Sig → SignLoopAcc → SignLoopAcc
  | [], acc => acc
  | s :: rest, acc => signMultiLoop fs0 rest (signMultiStep fs0 s acc)

/-- The observable outcome of one `JWSSigner.sign` call: the settled
promise, the caller's document after the call settles (`sign` mutates it
in place), the document values serialized as to-be-signed bytes, and the
`(alg, bytes)` arguments of every `key.sign` invocation. -/
structure SignOutcome where
  result : Except String JVal
  docState : JVal
  snapshots : List JVal
  signCalls : List (String × String)

/-- sign.js lines 84-98 and 104-106 in the single-signatory case: line 86
aliases the reserved field to the signer's full header, line 93 serializes
the document, and on success the stored header (with the base64url-encoded
signature appended) replaces the reserved field. If the key's sign
capability rejects, the caller's document keeps the aliased header. -/
def signRunSingle (fs0 : List (String × JVal)) (s : Sig) : SignOutcome :=
  let snap := signSnapSingle fs0 s.header
  let headers := jomit s.header (jkeys ([] : List (String × JVal)))
  let alg := hdrAlg s.header
  let tbs := snap.stringify
  match s.key.signFn alg tbs with
  | .error e =>
    { result := .error e
      docState := .obj (jset fs0 csigField (.obj s.header))
      snapshots := [snap]
      signCalls := [(alg, tbs)] }
  | .ok mac =>
    let storedHeader := jset headers "signature" (.str (b64urlEncode mac))
    let doc : JVal := .obj (jset fs0 csigField (.obj storedHeader))
    { result := .ok doc, docState := doc, snapshots := [snap], signCalls := [(alg, tbs)] }

/-- sign.js lines 66-111 when the signatory count is not 1: compute the
global headers, run the per-signer loop, then store the per-signer
header+signature records under `signers` (line 108). A rejected signing
step leaves the caller's document holding the loop's last intermediate
reserved-field state. -/
def signRunMulti (fs0 : List (String × JVal)) (sigs : List Sig) : SignOutcome :=
  let gh0 := computeGlobalHeaders (sigs.map Sig.header)
  let acc := signMultiLoop fs0 sigs { gh := gh0, snaps := [], calls := [], stored := .ok [] }
  match acc.stored with
  | .error e =>
    { result := .error e
      docState := .obj (jset fs0 csigField (.obj acc.gh))
      snapshots := acc.snaps
      signCalls := acc.calls }
  | .ok storedList =>
    let ghF := jset acc.gh "signers" (.arr (storedList.map JVal.obj))
    let doc : JVal := .obj (jset fs0 csigField (.obj ghF))
    { result := .ok doc, docState := doc, snapshots := acc.snaps, signCalls := acc.calls }

/-- Dispatch on the resolved signatory count (`sigs.length === 1` at
lines 85 and 105). -/
def signRunResolved (fs0 : List (String × JVal)) : List Sig → SignOutcome
  | [s] => signRunSingle fs0 s
  | sigs => signRunMulti fs0 sigs

/-- sign.js lines 49-114, `JWSSigner.sign(data)`: reject non-objects;
set the reserved field to an empty object (line 63, before any await);
wait for all signatories, rejecting on the first failure; then serialize
and sign per signer and assemble the final signature block. -/
def signRun (data : JVal) (signatories : List (Except String Sig)) : SignOutcome :=
  match data with
  | .obj fs =>
    let fs0 := jset fs csigField (.obj [])
    match seqSigs signatories with
    | .error e =>
      { result := .error e, docState := .obj fs0, snapshots := [], signCalls := [] }
    | .ok sigs => signRunResolved fs0 sigs
  | _ =>
    { result := .error "Data to sign must be an object"
      docState := data, snapshots := [], signCalls := [] }

/-! ## Verify side: the verifier module (`jws/verify.js`) -/

/-- The module-level default verification options (verify.js lines 16-19). -/
def DEFAULT_OPTIONS : List (String × JVal) :=
  [("algorithms", .str "*"), ("allowEmbeddedKey", .bool false)]

/-- verify.js line 61: `globalOpts = merge(DEFAULT_OPTIONS, globalOpts)`.
lodash `merge` mutates its first argument, so constructing a verifier
writes the merged options back into the module-level `DEFAULT_OPTIONS`
object. The first component is the instance's captured options, the
second the module state after construction. -/
def mkVerifierOpts (defaults : List (String × JVal)) (globalOpts : List (String × JVal)) :
    List (String × JVal) × List (String × JVal) :=
  let merged := mergeObjs defaults globalOpts
  (merged, merged)

/-- The external key-resolution collaborators a verifier is wired to:
`JWK.asKey` for embedded JWK material, `JWK.asKey(cert, "pkix")` for an
embedded certificate, the caller-supplied single key, and
`keystore.get({use: "sig", alg, kid})`. -/
structure VerifyEnv where
  asKey : Option JVal → Except String Key
  certKey : JVal → Except String Key
  assumedKey : Option Key
  ksGet : Option JVal → Option JVal → Option Key

/-- The record built at verify.js lines 98-102 and handed to `getAlgKey`.
It has exactly the properties `signee`, `header` and `signature`; in
particular it has no `jwk` property. -/
structure SigRec where
  signee : List (String × JVal)
  header : List (String × JVal)
  signature : String

/-- verify.js lines 25-38, `getAlgKey`. The outer `Except` is a
synchronous throw escaping the per-signer catch (`new Buffer` on a
malformed `x5c`); the inner `Except` is the promise, whose rejection the
caller catches. With `allowEmbeddedKey` and a truthy `header.jwk` the
source calls `JWK.asKey(sig.jwk)` — a property the record does not carry,
so the key material passed is `undefined` (`none`), not the header's
embedded JWK. -/
def getAlgKey (env : VerifyEnv) (allowEmbedded : Bool) (sig : SigRec) :
    Except String (Except String (Option Key)) :=
  if allowEmbedded && ((jget sig.header "jwk").getD .null).truthy then
    .ok ((env.asKey none).map some)
  else if allowEmbedded && ((jget sig.header "x5c").getD .null).truthy then
    match jget sig.header "x5c" with
    | some (.arr (c :: _)) => .ok ((env.certKey c).map some)
    | _ => .error "TypeError: cannot decode x5c certificate"
  else
    .ok (.ok (env.assumedKey.orElse fun _ => env.ksGet (jget sig.header "alg") (jget sig.header "kid")))

/-- The per-signer outcome recorded by the promise chain of verify.js
lines 103-131: a resolved verification result, or a caught failure with
its message. -/
inductive SigOutcome where
  | ok (valid : Bool)
  | fail (message : String)

/-- What processing one signer record produces: the settled per-signer
computation (`Except.error` is a failure that escapes the per-signer
catch and fails the whole call), and the document value serialized as
to-be-verified bytes when that point was reached. -/
structure SigProc where
  outcome : Except String SigOutcome
  snapshot : Option JVal

/-- verify.js lines 110-115: the scratch clone with its reserved field
rewritten to the current signer's signee (single-record form), or with
`signers` replaced by the one-element signee list (multi-record form). -/
def verifySnapshot (dataFs : List (String × JVal)) (csig : List (String × JVal))
    (signee : List (String × JVal)) (single : Bool) : JVal :=
  if single then .obj (jset dataFs csigField (.obj signee))
  else .obj (jset dataFs csigField (.obj (jset csig "signers" (.arr [.obj signee]))))

/-- The signee header: the stored record with the transient `valid` and
`message` annotations stripped (line 91) and the `signature` value
removed (line 94). -/
def verifySignee (sigPairs : List (String × JVal)) : List (String × JVal) :=
  jomit (jomit sigPairs ["valid", "message"]) ["signature"]

/-- verify.js lines 90-131, processing of one signer record. The
synchronous prefix (lines 91-102) runs inside `sigs.map`: a record whose
`signature` is missing or not a string makes `base64url.decode` throw out
of the whole call, and a disallowed algorithm returns an already-rejected
promise to which no catch is attached (line 96), so it too fails the
whole call. Everything from `getAlgKey` on is wrapped by the catch of
lines 122-131 and is recorded as a per-signer outcome. -/
def processSig (env : VerifyEnv) (allowEmbedded : Bool) (algSpec : JVal)
    (dataFs : List (String × JVal)) (csig : List (String × JVal)) (single : Bool)
    (record : JVal) : SigProc :=
  let sigPairs := match record with
    | .obj fs => fs
    | _ => []
  let signee0 := jomit sigPairs ["valid", "message"]
  let header := mergeObjs (mergeObjs [] signee0) (jomit csig ["signers"])
  match jget signee0 "signature" with
  | some (.str sstr) =>
    let signature := b64urlDecode sstr
    let signee := jomit signee0 ["signature"]
    let alg := hdrAlg header
    if !(algMatch algSpec alg) then
      { outcome := .error ("Algorithm not allowed: " ++ alg), snapshot := none }
    else
      match getAlgKey env allowEmbedded
          { signee := signee, header := header, signature := signature } with
      | .error e => { outcome := .error e, snapshot := none }
      | .ok (.error e) => { outcome := .ok (.fail e), snapshot := none }
      | .ok (.ok none) => { outcome := .ok (.fail "Key does not match"), snapshot := none }
      | .ok (.ok (some key)) =>
        let snap := verifySnapshot dataFs csig signee single
        match key.verifyFn alg snap.stringify signature with
        | .ok v => { outcome := .ok (.ok v), snapshot := some snap }
        | .error e => { outcome := .ok (.fail e), snapshot := some snap }
  | some _ => { outcome := .error "TypeError: signature is not a string", snapshot := none }
  | none => { outcome := .error "TypeError: cannot decode undefined signature", snapshot := none }

/-- The failure write-back of verify.js lines 122-129 applied to a stored
record, and the success write-back of lines 117-121 (`valid` only). -/
def outcomeUpdate (p : List (String × JVal)) (o : SigOutcome) : List (String × JVal) :=
  match o with
  | .ok v => jset p "valid" (.bool v)
  | .fail m => jset (jset p "valid" (.bool false)) "message" (.str m)

/-- Write-back onto one stored `signers` entry of the input document. -/
def updRec (r : JVal) (o : SigOutcome) : JVal :=
  match r with
  | .obj p => .obj (outcomeUpdate p o)
  | _ => r

/-- The settled verify call. -/
structure VerifyOutcome where
  result : Except String JVal
  snapshots : List JVal

/-- Processing of the extracted record sequence (verify.js lines 90-136):
every record is processed; a failure escaping the per-signer catch fails
the whole call; otherwise the outcomes are written back onto the input —
onto each `signers` entry in the multi-record form, onto the reserved
field itself in the single-record form but there only on the failure path
(lines 117-121 skip the success write-back when `sigs.length === 1`). -/
def verifyRecords (env : VerifyEnv) (allowEmbedded : Bool) (algSpec : JVal)
    (fs : List (String × JVal)) (csig : List (String × JVal)) (input : JVal)
    (recs : List JVal) : VerifyOutcome :=
  let single := recs.length == 1
  let procs := recs.map (processSig env allowEmbedded algSpec fs csig single)
  let snaps := procs.filterMap (fun p => p.snapshot)
  match procs.findSome? (fun p => match p.outcome with | .error e => some e | _ => none) with
  | some e => { result := .error e, snapshots := snaps }
  | none =>
    let outs := procs.map (fun p =>
      match p.outcome with | .ok o => o | .error e => SigOutcome.fail e)
    if single then
      match outs with
      | [SigOutcome.ok _] => { result := .ok input, snapshots := snaps }
      | [SigOutcome.fail m] =>
        { result := .ok (.obj (jset fs csigField
            (.obj (jset (jset csig "valid" (.bool false)) "message" (.str m)))))
          snapshots := snaps }
      | _ => { result := .ok input, snapshots := snaps }
    else
      { result := .ok (.obj (jset fs csigField
          (.obj (jset csig "signers" (.arr (List.zipWith updRec recs outs))))))
        snapshots := snaps }

/-- verify.js lines 72-137, `JWSVerifier.verify(input, opts)`: merge the
per-call options over the instance options (per-call wins, line 74); a
string input hits the misspelled `JSON.parse(intput)` and throws a
ReferenceError; non-objects throw; the record sequence is
`csig.signers || [csig]`; the call resolves with the mutated input. -/
def verifyRun (env : VerifyEnv) (globalOpts callOpts : List (String × JVal))
    (input : JVal) : VerifyOutcome :=
  let opts := mergeObjs (mergeObjs [] globalOpts) callOpts
  let algSpec := (jget opts "algorithms").getD .null
  let allowEmbedded := ((jget opts "allowEmbeddedKey").getD .null).truthy
  match input with
  | .str _ => { result := .error "ReferenceError: intput is not defined", snapshots := [] }
  | .obj fs =>
    match jget fs csigField with
    | some (.obj csig) =>
      match jget csig "signers" with
      | some (.arr l) => verifyRecords env allowEmbedded algSpec fs csig input l
      | some v =>
        if v.truthy
        then { result := .error "TypeError: sigs.map is not a function", snapshots := [] }
        else verifyRecords env allowEmbedded algSpec fs csig input [.obj csig]
      | none => verifyRecords env allowEmbedded algSpec fs csig input [.obj csig]
    | some v =>
      -- a primitive reserved value: property reads on it yield undefined,
      -- so the fallback single-record sequence holds the primitive itself
      verifyRecords env allowEmbedded algSpec fs [] input [v]
    | none => { result := .error "TypeError: cannot read signers of undefined", snapshots := [] }
  | _ => { result := .error "Input has to be a JOSN object.", snapshots := [] }

instance : DecidableEq (Except String JVal) :=
  fun a b =>
    match a, b with
    | .error x, .error y =>
      if h : x = y then .isTrue (by rw [h]) else .isFalse (by simp [h])
    | .error _, .ok _ => .isFalse (fun h => nomatch h)
    | .ok _, .error _ => .isFalse (fun h => nomatch h)
    | .ok x, .ok y =>
      if h : x = y then .isTrue (by rw [h]) else .isFalse (by simp [h])

/-! ## Helper lemmas about the JS object model -/

theorem jget_jset_self (l : List (String × JVal)) (k : String) (v : JVal) :
    jget (jset l k v) k = some v := by
  induction l with
  | nil => simp [jget, jset]
  | cons p rest ih =>
    obtain ⟨k', v'⟩ := p
    by_cases h : k' = k
    · simp [jset, jget, h]
    · simp [jset, jget, h, ih]

theorem jset_jset_self (l : List (String × JVal)) (k : String) (v w : JVal) :
    jset (jset l k v) k w = jset l k w := by
  induction l with
  | nil => simp [jset]
  | cons p rest ih =>
    obtain ⟨k', v'⟩ := p
    by_cases h : k' = k
    · simp [jset, h]
    · simp [jset, h, ih]

theorem jkeys_jset_of_not_mem (l : List (String × JVal)) (k : String) (v : JVal)
    (h : k ∉ jkeys l) : jkeys (jset l k v) = jkeys l ++ [k] := by
  induction l with
  | nil => simp [jset, jkeys]
  | cons p rest ih =>
    obtain ⟨k', v'⟩ := p
    rw [show jkeys ((k', v') :: rest) = k' :: jkeys rest from rfl] at h
    simp only [List.mem_cons, not_or] at h
    have hne : ¬ (k' = k) := fun hh => h.1 hh.symm
    show jkeys (if k' = k then (k, v) :: rest else (k', v') :: jset rest k v)
        = (k' :: jkeys rest) ++ [k]
    rw [if_neg hne]
    show k' :: jkeys (jset rest k v) = (k' :: jkeys rest) ++ [k]
    rw [ih h.2]
    rfl

theorem mem_jkeys_jset (l : List (String × JVal)) (k j : String) (v : JVal)
    (h : j ∈ jkeys (jset l k v)) : j ∈ jkeys l ∨ j = k := by
  induction l with
  | nil =>
    right
    simpa [jset, jkeys] using h
  | cons p rest ih =>
    obtain ⟨k', v'⟩ := p
    by_cases hk : k' = k
    · rw [show jset ((k', v') :: rest) k v = (k, v) :: rest from by simp [jset, hk]] at h
      rcases List.mem_cons.mp h with h | h
      · right; exact h
      · left; exact List.mem_cons.mpr (Or.inr h)
    · rw [show jset ((k', v') :: rest) k v = (k', v') :: jset rest k v from by
        simp [jset, hk]] at h
      rcases List.mem_cons.mp h with h | h
      · left; exact List.mem_cons.mpr (Or.inl h)
      · rcases ih h with h2 | h2
        · left; exact List.mem_cons.mpr (Or.inr h2)
        · right; exact h2

theorem jomit_append_of_not_mem (l : List (String × JVal)) (ks : List String) (k : String)
    (h : k ∉ jkeys l) : jomit l (ks ++ [k]) = jomit l ks := by
  unfold jomit
  apply List.filter_congr
  intro p hp
  have hne : p.1 ≠ k := by
    intro hh
    exact h (hh ▸ List.mem_map_of_mem Prod.fst hp)
  simp [List.contains, List.elem_eq_mem, List.mem_append, hne]

theorem not_mem_jkeys_jomit (l : List (String × JVal)) (ks : List String) (k : String)
    (h : k ∈ ks) : k ∉ jkeys (jomit l ks) := by
  intro hmem
  simp only [jkeys, jomit] at hmem
  rw [List.mem_map] at hmem
  obtain ⟨p, hp, hpk⟩ := hmem
  rw [List.mem_filter] at hp
  have hc := hp.2
  rw [hpk] at hc
  simp [List.contains, List.elem_eq_mem, h] at hc

theorem mem_jkeys_jomit (l : List (String × JVal)) (ks : List String) (k : String)
    (h : k ∈ jkeys (jomit l ks)) : k ∈ jkeys l := by
  simp only [jkeys, jomit] at h ⊢
  rw [List.mem_map] at h ⊢
  obtain ⟨p, hp, hpk⟩ := h
  exact ⟨p, (List.mem_filter.mp hp).1, hpk⟩

theorem mem_foldl_cghStep (headers : List (List (String × JVal))) :
    ∀ (ks : List String) (acc : List (String × JVal)) (j : String),
    j ∈ jkeys (ks.foldl (cghStep headers) acc) → j ∈ jkeys acc ∨ j ∈ ks := by
  intro ks
  induction ks with
  | nil => intro acc j h; left; exact h
  | cons k rest ih =>
    intro acc j h
    rw [List.foldl_cons] at h
    rcases ih _ j h with h2 | h2
    · by_cases hc : jsAllEqChain (headers.map (fun hd => (jget hd k).getD .null))
      · simp only [cghStep, if_pos hc] at h2
        rcases mem_jkeys_jset _ k j _ h2 with h3 | h3
        · left; exact h3
        · right; exact List.mem_cons.mpr (Or.inl h3)
      · simp only [cghStep, if_neg hc] at h2
        left; exact h2
    · right; exact List.mem_cons.mpr (Or.inr h2)

theorem mem_jkeys_computeGlobalHeaders (headers : List (List (String × JVal))) (j : String)
    (h : j ∈ jkeys (computeGlobalHeaders headers)) :
    j ∈ intersectKeys (headers.map jkeys) := by
  rcases mem_foldl_cghStep headers _ [] j h with h2 | h2
  · simp [jkeys] at h2
  · exact h2

theorem mem_intersectKeys_head (l : List String) (ls : List (List String)) (j : String)
    (h : j ∈ intersectKeys (l :: ls)) : j ∈ l :=
  (List.mem_filter.mp h).1

/-- The document value canonicalized for one signer in the multi-signer
case, as a pure function of the base fields, the global-header set and
that signer's own header. -/
def pureSnapMulti (fs0 gh0 hdr : List (String × JVal)) : JVal :=
  .obj (jset fs0 csigField (.obj (jset gh0 "signers" (.arr [.obj (jomit hdr (jkeys gh0))]))))

theorem signMultiStep_gh_eq (gh0 : List (String × JVal)) (s : Sig) (acc : SignLoopAcc)
    (hgh : "signers" ∉ jkeys gh0) (hs : "signers" ∉ jkeys s.header)
    (hacc : acc.gh = gh0 ∨ ∃ w, acc.gh = jset gh0 "signers" w) :
    jset acc.gh "signers" (.arr [.obj (jomit s.header (jkeys acc.gh))])
      = jset gh0 "signers" (.arr [.obj (jomit s.header (jkeys gh0))]) := by
  rcases hacc with h | ⟨w, h⟩
  · rw [h]
  · rw [h, jkeys_jset_of_not_mem gh0 "signers" w hgh,
      jomit_append_of_not_mem s.header (jkeys gh0) "signers" hs,
      jset_jset_self]

theorem signMultiLoop_snaps_pure (fs0 gh0 : List (String × JVal))
    (hgh : "signers" ∉ jkeys gh0) :
    ∀ (sigs : List Sig) (acc : SignLoopAcc),
    (acc.gh = gh0 ∨ ∃ w, acc.gh = jset gh0 "signers" w) →
    (∀ s ∈ sigs, "signers" ∉ jkeys s.header) →
    (signMultiLoop fs0 sigs acc).snaps
      = acc.snaps ++ sigs.map (fun s => pureSnapMulti fs0 gh0 s.header) := by
  intro sigs
  induction sigs with
  | nil => intro acc _ _; simp [signMultiLoop]
  | cons s rest ih =>
    intro acc hacc hhdr
    have hs := hhdr s (List.mem_cons_self s rest)
    have hkey := signMultiStep_gh_eq gh0 s acc hgh hs hacc
    have hgh' : (signMultiStep fs0 s acc).gh
        = jset gh0 "signers" (.arr [.obj (jomit s.header (jkeys gh0))]) := by
      show jset acc.gh "signers" (.arr [.obj (jomit s.header (jkeys acc.gh))]) = _
      exact hkey
    have hsnaps : (signMultiStep fs0 s acc).snaps
        = acc.snaps ++ [pureSnapMulti fs0 gh0 s.header] := by
      show acc.snaps ++ [JVal.obj (jset fs0 csigField
        (.obj (jset acc.gh "signers" (.arr [.obj (jomit s.header (jkeys acc.gh))]))))] = _
      rw [hkey]
      rfl
    calc (signMultiLoop fs0 (s :: rest) acc).snaps
        = (signMultiLoop fs0 rest (signMultiStep fs0 s acc)).snaps := rfl
      _ = (signMultiStep fs0 s acc).snaps
            ++ rest.map (fun s2 => pureSnapMulti fs0 gh0 s2.header) :=
        ih _ (Or.inr ⟨_, hgh'⟩) (fun s2 h2 => hhdr s2 (List.mem_cons_of_mem _ h2))
      _ = acc.snaps ++ ((s :: rest).map (fun s2 => pureSnapMulti fs0 gh0 s2.header)) := by
        rw [hsnaps]
        simp

theorem signMultiLoop_snap_mem (fs0 : List (String × JVal)) :
    ∀ (sigs : List Sig) (acc : SignLoopAcc) (snap : JVal),
    snap ∈ (signMultiLoop fs0 sigs acc).snaps →
    snap ∈ acc.snaps ∨ ∃ s, s ∈ sigs ∧ ∃ gh,
      snap = .obj (jset fs0 csigField
        (.obj (jset gh "signers" (.arr [.obj (jomit s.header (jkeys gh))])))) := by
  intro sigs
  induction sigs with
  | nil => intro acc snap h; left; exact h
  | cons s rest ih =>
    intro acc snap h
    rw [show signMultiLoop fs0 (s :: rest) acc
        = signMultiLoop fs0 rest (signMultiStep fs0 s acc) from rfl] at h
    rcases ih _ snap h with h2 | h2
    · have h3 : snap ∈ acc.snaps ++ [JVal.obj (jset fs0 csigField
          (.obj (jset acc.gh "signers" (.arr [.obj (jomit s.header (jkeys acc.gh))]))))] := h2
      rcases List.mem_append.mp h3 with h4 | h4
      · left; exact h4
      · right
        refine ⟨s, List.mem_cons_self s rest, acc.gh, ?_⟩
        simpa using h4
    · obtain ⟨s2, hs2, gh, hsnap⟩ := h2
      right
      exact ⟨s2, List.mem_cons_of_mem _ hs2, gh, hsnap⟩

theorem processSig_snapshot_shape (env : VerifyEnv) (a : Bool) (algSpec : JVal)
    (dataFs csig : List (String × JVal)) (single : Bool) (record : JVal) :
    (processSig env a algSpec dataFs csig single record).snapshot = none ∨
    ∃ sp, (processSig env a algSpec dataFs csig single record).snapshot
        = some (verifySnapshot dataFs csig sp single) ∧ "signature" ∉ jkeys sp := by
  have hsig : ∀ (l : List (String × JVal)), "signature" ∉ jkeys (jomit l ["signature"]) :=
    fun l => not_mem_jkeys_jomit l ["signature"] "signature" (by simp)
  simp only [processSig]
  split
  · split
    · left; rfl
    · split
      · left; rfl
      · left; rfl
      · left; rfl
      · split
        · right; exact ⟨_, rfl, hsig _⟩
        · right; exact ⟨_, rfl, hsig _⟩
  · left; rfl
  · left; rfl

theorem verifyRecords_snapshots (env : VerifyEnv) (a : Bool) (algSpec : JVal)
    (fs csig : List (String × JVal)) (input : JVal) (recs : List JVal) :
    (verifyRecords env a algSpec fs csig input recs).snapshots
      = (recs.map (processSig env a algSpec fs csig (recs.length == 1))).filterMap
          (fun p => p.snapshot) := by
  simp only [verifyRecords]
  split
  · rfl
  · split
    · split <;> rfl
    · rfl

theorem verifyRun_snap_shape (env : VerifyEnv) (gOpts cOpts : List (String × JVal))
    (input : JVal) (snap : JVal)
    (h : snap ∈ (verifyRun env gOpts cOpts input).snapshots) :
    ∃ fsx csigx sp single, snap = verifySnapshot fsx csigx sp single
      ∧ "signature" ∉ jkeys sp := by
  have main : ∀ (a : Bool) (algSpec : JVal) (fs csig : List (String × JVal)) (inp : JVal)
      (recs : List JVal), snap ∈ (verifyRecords env a algSpec fs csig inp recs).snapshots →
      ∃ fsx csigx sp single, snap = verifySnapshot fsx csigx sp single
        ∧ "signature" ∉ jkeys sp := by
    intro a algSpec fs csig inp recs hm
    rw [verifyRecords_snapshots] at hm
    rw [List.mem_filterMap] at hm
    obtain ⟨p, hp, hps⟩ := hm
    rw [List.mem_map] at hp
    obtain ⟨r, _, hpr⟩ := hp
    rw [← hpr] at hps
    rcases processSig_snapshot_shape env a algSpec fs csig (recs.length == 1) r with h0 | ⟨sp, h1, h2⟩
    · rw [h0] at hps; exact absurd hps (by simp)
    · rw [h1] at hps
      exact ⟨fs, csig, sp, recs.length == 1, (Option.some.inj hps).symm, h2⟩
  revert h
  simp only [verifyRun]
  split
  · intro h; simp at h
  · split
    · split
      · exact main _ _ _ _ _ _
      · split
        · intro h; simp at h
        · exact main _ _ _ _ _ _
      · exact main _ _ _ _ _ _
    · exact main _ _ _ _ _ _
    · intro h; simp at h
  · intro h; simp at h

theorem signRun_snap_shape (fs : List (String × JVal)) (signatories : List (Except String Sig))
    (resolved : List Sig) (hres : seqSigs signatories = .ok resolved)
    (hhdr : ∀ hdr ∈ resolved.map Sig.header, "signature" ∉ jkeys hdr) :
    ∀ snap ∈ (signRun (.obj fs) signatories).snapshots,
    ∃ hp, "signature" ∉ jkeys hp ∧
      (snap = signSnapSingle (jset fs csigField (.obj [])) hp ∨
       ∃ gh, snap = .obj (jset (jset fs csigField (.obj [])) csigField
         (.obj (jset gh "signers" (.arr [.obj hp]))))) := by
  intro snap hsnap
  simp only [signRun, hres] at hsnap
  rcases resolved with _ | ⟨s, rest⟩
  · simp [signRunResolved, signRunMulti, signMultiLoop] at hsnap
  · rcases rest with _ | ⟨s2, rest2⟩
    · simp only [signRunResolved, signRunSingle] at hsnap
      have h1 : snap ∈ [signSnapSingle (jset fs csigField (.obj [])) s.header] := by
        revert hsnap
        split <;> (intro hsnap; exact hsnap)
      have h2 := List.mem_singleton.mp h1
      exact ⟨s.header, hhdr s.header (by simp), Or.inl h2⟩
    · simp only [signRunResolved, signRunMulti] at hsnap
      have h1 : snap ∈ (signMultiLoop (jset fs csigField (.obj [])) (s :: s2 :: rest2)
          { gh := computeGlobalHeaders ((s :: s2 :: rest2).map Sig.header)
            snaps := [], calls := [], stored := .ok [] }).snaps := by
        revert hsnap
        split <;> (intro hsnap; exact hsnap)
      rcases signMultiLoop_snap_mem _ _ _ _ h1 with h2 | ⟨sx, hsx, gh, hshape⟩
      · simp at h2
      · refine ⟨jomit sx.header (jkeys gh), ?_, Or.inr ⟨gh, hshape⟩⟩
        intro hmem
        exact hhdr sx.header (List.mem_map_of_mem Sig.header hsx) (mem_jkeys_jomit _ _ _ hmem)

/-! ## Concrete keys, environments and documents used by the claim theorems -/

/-- A symmetric demo key whose verify capability accepts exactly what its
sign capability produced over the same algorithm and bytes. -/
def demoKey : Key :=
  { kty := "oct", algs := ["HS256"], toJSON := [("kid", .str "K1")]
    signFn := fun alg bytes => .ok ("mac|" ++ alg ++ "|" ++ bytes)
    verifyFn := fun alg bytes s => .ok (s == "mac|" ++ alg ++ "|" ++ bytes) }

/-- A verifier environment bound to `demoKey` as the assumed key. -/
def demoEnv : VerifyEnv :=
  { asKey := fun _ => .error "not used", certKey := fun _ => .error "not used"
    assumedKey := some demoKey, ksGet := fun _ _ => none }

/-! ## C1 — global header factoring -/

/-- The header shared by all signatories in the C1 scenario. -/
def c1Header : List (String × JVal) := [("alg", .str "HS256"), ("kid", .str "X")]

/-- C1: the claim states that a header field present in every signer with
the same value enters the global set "for any number of signers".  With
three signers all carrying `alg = "HS256"` and `kid = "X"`, the code's
`values.reduce((a, b) => a === b)` (sign.js line 74) chain-evaluates
`("X" === "X") === "X" = false`, so the computed global-header set is
empty — contradicting the claim and the code's own comment "All values
are equal"; with two signers both fields are folded as the claim says. -/
theorem globalHeaders_drop_fields_shared_by_three_signers :
    (∀ hd ∈ [c1Header, c1Header, c1Header],
      jget hd "kid" = some (.str "X") ∧ jget hd "alg" = some (.str "HS256")) ∧
    computeGlobalHeaders [c1Header, c1Header, c1Header] = [] ∧
    computeGlobalHeaders [c1Header, c1Header]
      = [("alg", .str "HS256"), ("kid", .str "X")] := by decide

/-! ## C2 — sign/verify round trip -/

/-- The C2 document. -/
def c2Doc : JVal := .obj [("msg", .str "hi")]

/-- One resolved signatory with a valid key. -/
def c2Sigs : List (Except String Sig) :=
  [.ok { header := [("alg", .str "HS256")], key := demoKey }]

/-- The document produced by signing `c2Doc` with the single signatory. -/
def c2Signed : JVal := ((signRun c2Doc c2Sigs).result).toOption.getD .null

/-- C2: signing a document with one valid signatory succeeds and verifying
the result resolves with the content fields unchanged, but the signer's
entry carries no `valid` flag at all: the single-signer success path
(verify.js lines 117-121) writes the flag only when `sigs.length !== 1`,
so `verify(sign(D))` does not yield `valid == true` for the one signer. -/
theorem roundTrip_single_signer_lacks_valid_flag :
    (signRun c2Doc c2Sigs).result = .ok c2Signed ∧
    (verifyRun demoEnv DEFAULT_OPTIONS [] c2Signed).result = .ok c2Signed ∧
    (match c2Signed with | .obj fs => jget fs "msg" | _ => none) = some (.str "hi") ∧
    (match c2Signed with
     | .obj fs =>
       match jget fs csigField with
       | some (.obj csig) => jget csig "valid"
       | _ => some .null
     | _ => some .null) = none := by
  exact ⟨by decide, by decide, by decide, by decide⟩

/-! ## C3 — per-signer failure isolation during verification -/

/-- A single-signer document whose stored algorithm is RS256. -/
def c3Doc : JVal := .obj [("msg", .str "m"),
  (csigField, .obj [("alg", .str "RS256"), ("signature", .str "b64.xx")])]

/-- A verifier environment that can resolve no key at all. -/
def c3NoKeyEnv : VerifyEnv :=
  { asKey := fun _ => .error "not used", certKey := fun _ => .error "not used"
    assumedKey := none, ksGet := fun _ _ => none }

/-- C3: the claim states a disallowed algorithm is recorded as
`valid: false` on the signer's entry and never rejects the call.  In the
code the algorithm check (verify.js lines 95-97) returns an
already-rejected promise before the per-signer catch of lines 122-131 is
attached, so verifying the RS256 document under `algorithms: "HS256"`
rejects the whole call.  An unresolvable key, by contrast, is inside the
catch and is recorded per-signer as the claim describes. -/
theorem verify_rejects_whole_call_on_disallowed_algorithm :
    (verifyRun demoEnv DEFAULT_OPTIONS [("algorithms", .str "HS256")] c3Doc).result
      = .error "Algorithm not allowed: RS256" ∧
    (verifyRun c3NoKeyEnv DEFAULT_OPTIONS [] c3Doc).result
      = .ok (.obj [("msg", .str "m"),
          (csigField, .obj [("alg", .str "RS256"), ("signature", .str "b64.xx"),
            ("valid", .bool false), ("message", .str "Key does not match")])]) := by
  exact ⟨by decide, by decide⟩

/-! ## C4 — fail-fast signing and (non-)atomicity -/

/-- A key whose sign capability always rejects. -/
def c4BadKey : Key :=
  { kty := "oct", algs := ["HS256"], toJSON := []
    signFn := fun _ _ => .error "signing failed", verifyFn := fun _ _ _ => .ok false }

/-- The signatory built on the failing key. -/
def c4Sig : Sig := { header := [("alg", .str "HS256")], key := c4BadKey }

/-- The settled sign call for the C4 counter-scenario. -/
def c4Out : SignOutcome := signRun (.obj [("msg", .str "hi")]) [.ok c4Sig]

/-- C4 counterexample: when the single signing step rejects, the call
rejects with that error as claimed, but the caller's document is NOT left
without a partially populated reserved signature field: after the call
settles, the reserved field holds the signer's header with no signature
in it (sign.js line 86 aliased it before `key.sign` was awaited, and
nothing rolls it back). -/
theorem sign_rejection_leaves_partial_reserved_field :
    c4Out.result = .error "signing failed" ∧
    (match c4Out.docState with | .obj fs => jget fs csigField | _ => none)
      = some (.obj [("alg", .str "HS256")]) ∧
    jget [("alg", .str "HS256")] "signature" = none := by
  exact ⟨by decide, by decide, by decide⟩

/-- C4 amended: any signatory resolution failure rejects the whole sign
call with the first such error, and a failing signing step rejects the
call with its error — but the operation is not atomic: the caller's
document keeps the reserved field in the intermediate state signing
reached (an empty object after a resolution failure; the signer's
header without a signature after a failed single-signer signing step). -/
theorem sign_failure_rejects_but_does_not_roll_back :
    (∀ (fs : List (String × JVal)) (signatories : List (Except String Sig)) (e : String),
      seqSigs signatories = .error e →
      (signRun (.obj fs) signatories).result = .error e ∧
      (signRun (.obj fs) signatories).docState = .obj (jset fs csigField (.obj []))) ∧
    (∀ (fs : List (String × JVal)) (s : Sig) (e : String),
      s.key.signFn (hdrAlg s.header)
          ((signSnapSingle (jset fs csigField (.obj [])) s.header).stringify) = .error e →
      (signRun (.obj fs) [.ok s]).result = .error e ∧
      (signRun (.obj fs) [.ok s]).docState
        = .obj (jset (jset fs csigField (.obj [])) csigField (.obj s.header))) := by
  constructor
  · intro fs signatories e h
    constructor <;> simp [signRun, h]
  · intro fs s e h
    have hres : seqSigs [Except.ok s] = .ok [s] := rfl
    constructor <;>
      simp [signRun, hres, signRunResolved, signRunSingle, h]

/-- C4 witness: the amended statement applied to a failing resolution and
to the failing key `c4BadKey`. -/
theorem sign_failure_rejects_but_does_not_roll_back_witness :
    (signRun (.obj [("m", .str "x")]) [.error "no key"]).result = .error "no key" ∧
    (signRun (.obj [("msg", .str "hi")]) [.ok c4Sig]).docState
      = .obj (jset (jset [("msg", .str "hi")] csigField (.obj [])) csigField
          (.obj c4Sig.header)) :=
  ⟨(sign_failure_rejects_but_does_not_roll_back.1 [("m", .str "x")]
      [.error "no key"] "no key" rfl).1,
   (sign_failure_rejects_but_does_not_roll_back.2 [("msg", .str "hi")]
      c4Sig "signing failed" rfl).2⟩

/-! ## C5 — a signer's own signature is never inside its canonical bytes -/

/-- C5: on the signing side every serialized snapshot embeds the current
signer's header content with no `signature` key (given that the resolved
signatory headers carry none — the computed signature is only stored
after the bytes are serialized), and on the verification side every
serialized snapshot is built from a signee from which the stored
`signature` was removed (verify.js line 94), unconditionally. -/
theorem own_signature_never_in_canonical_bytes :
    (∀ (fs : List (String × JVal)) (signatories : List (Except String Sig))
        (resolved : List Sig),
      seqSigs signatories = .ok resolved →
      (∀ hdr ∈ resolved.map Sig.header, "signature" ∉ jkeys hdr) →
      ∀ snap ∈ (signRun (.obj fs) signatories).snapshots,
      ∃ hp, "signature" ∉ jkeys hp ∧
        (snap = signSnapSingle (jset fs csigField (.obj [])) hp ∨
         ∃ gh, snap = .obj (jset (jset fs csigField (.obj [])) csigField
           (.obj (jset gh "signers" (.arr [.obj hp])))))) ∧
    (∀ (env : VerifyEnv) (gOpts cOpts : List (String × JVal)) (input snap : JVal),
      snap ∈ (verifyRun env gOpts cOpts input).snapshots →
      ∃ fsx csigx sp single, snap = verifySnapshot fsx csigx sp single
        ∧ "signature" ∉ jkeys sp) :=
  ⟨signRun_snap_shape, verifyRun_snap_shape⟩

/-- Base fields of the C5 witness document. -/
def c5Fs : List (String × JVal) := [("m", .str "x")]

/-- The one snapshot serialized while signing the witness document. -/
def c5Snap : JVal := ((signRun (.obj c5Fs) c2Sigs).snapshots).headD .null

/-- C5 witness: the signing-side statement applied to a concrete
single-signatory run. -/
theorem own_signature_never_in_canonical_bytes_witness :
    ∃ hp, "signature" ∉ jkeys hp ∧
      (c5Snap = signSnapSingle (jset c5Fs csigField (.obj [])) hp ∨
       ∃ gh, c5Snap = .obj (jset (jset c5Fs csigField (.obj [])) csigField
         (.obj (jset gh "signers" (.arr [.obj hp]))))) :=
  own_signature_never_in_canonical_bytes.1 c5Fs c2Sigs
    [{ header := [("alg", .str "HS256")], key := demoKey }] rfl
    (by decide) c5Snap (by decide)

/-! ## C6 — symmetric per-signer write-back -/

/-- A key that accepts every signature. -/
def c6Key : Key :=
  { kty := "RSA", algs := ["RS256"], toJSON := []
    signFn := fun _ _ => .error "not used", verifyFn := fun _ _ _ => .ok true }

/-- Verifier environment bound to the always-accepting key. -/
def c6Env : VerifyEnv :=
  { asKey := fun _ => .error "not used", certKey := fun _ => .error "not used"
    assumedKey := some c6Key, ksGet := fun _ _ => none }

/-- A single-signer document. -/
def c6Single : JVal :=
  .obj [(csigField, .obj [("alg", .str "RS256"), ("signature", .str "b64.s")])]

/-- A two-signer document. -/
def c6Multi : JVal :=
  .obj [(csigField, .obj [("signers", .arr
    [.obj [("alg", .str "RS256"), ("signature", .str "b64.s1")],
     .obj [("alg", .str "RS256"), ("signature", .str "b64.s2")]])])]

/-- C6: the claim states the write-back is symmetric across forms and
paths.  On a successful single-signer verification the code returns the
input untouched — no `valid` flag is written (verify.js lines 117-121
gate the success write-back on `sigs.length !== 1`) — while the same key
verifying a two-signer document writes `valid: true` onto both entries. -/
theorem verify_writeback_asymmetric_between_forms :
    (verifyRun c6Env DEFAULT_OPTIONS [] c6Single).result = .ok c6Single ∧
    (match c6Single with
     | .obj fs =>
       match jget fs csigField with
       | some (.obj csig) => jget csig "valid"
       | _ => some .null
     | _ => some .null) = none ∧
    (verifyRun c6Env DEFAULT_OPTIONS [] c6Multi).result
      = .ok (.obj [(csigField, .obj [("signers", .arr
          [.obj [("alg", .str "RS256"), ("signature", .str "b64.s1"), ("valid", .bool true)],
           .obj [("alg", .str "RS256"), ("signature", .str "b64.s2"),
             ("valid", .bool true)]])])]) := by
  exact ⟨by decide, by decide, by decide⟩

/-! ## C7 — embedded-key resolution -/

/-- Embedded public key material carried in the signer's header. -/
def c7Jwk : JVal :=
  .obj [("kty", .str "EC"), ("crv", .str "P-256"), ("x", .str "xq"), ("y", .str "yq")]

/-- The key that `JWK.asKey` would produce from the embedded material. -/
def c7Key : Key :=
  { kty := "EC", algs := ["ES256"], toJSON := []
    signFn := fun _ _ => .error "not used", verifyFn := fun _ _ _ => .ok true }

/-- An environment whose `asKey` succeeds on present key material and
rejects on `undefined`, with no other key source available. -/
def c7Env : VerifyEnv :=
  { asKey := fun m => match m with
      | some _ => .ok c7Key
      | none => .error "Invalid key material"
    certKey := fun _ => .error "not used"
    assumedKey := none
    ksGet := fun _ _ => none }

/-- The record handed to `getAlgKey` for a header carrying `jwk`. -/
def c7Rec : SigRec :=
  { signee := [("alg", .str "ES256")]
    header := [("alg", .str "ES256"), ("jwk", c7Jwk)], signature := "s" }

/-- A single-signer document whose header embeds the JWK. -/
def c7Doc : JVal := .obj [(csigField, .obj
  [("alg", .str "ES256"), ("jwk", c7Jwk), ("signature", .str "b64.s")])]

/-- C7: the claim states that with `allowEmbeddedKey` and an embedded
`jwk` the verification key is constructed from the header's key material.
The code (verify.js line 27) instead passes `sig.jwk` — a property the
record does not carry — so key construction receives `undefined` and
fails, although constructing from the header's material would succeed;
end to end the signer is marked invalid instead of being verified with
the embedded key. -/
theorem embedded_jwk_material_not_used :
    getAlgKey c7Env true c7Rec = .ok (.error "Invalid key material") ∧
    c7Env.asKey (some c7Jwk) = .ok c7Key ∧
    (verifyRun c7Env DEFAULT_OPTIONS [("allowEmbeddedKey", .bool true)] c7Doc).result
      = .ok (.obj [(csigField, .obj [("alg", .str "ES256"), ("jwk", c7Jwk),
          ("signature", .str "b64.s"), ("valid", .bool false),
          ("message", .str "Invalid key material")])]) := by
  exact ⟨rfl, rfl, by decide⟩

/-! ## C8 — per-signer independence of the canonical bytes -/

/-- First signer header of the C8 counter-scenario: it carries a field
literally named "signers". -/
def c8H1 : List (String × JVal) := [("alg", .str "HS256"), ("signers", .str "a")]

/-- Second signer header, differing only in the "signers" value. -/
def c8H2 : List (String × JVal) := [("alg", .str "HS256"), ("signers", .str "b")]

/-- The two signatories. -/
def c8S1 : Sig := { header := c8H1, key := demoKey }

def c8S2 : Sig := { header := c8H2, key := demoKey }

/-- The C8 base document. -/
def c8Doc : JVal := .obj [("msg", .str "hi")]

/-- C8 counterexample: the serialized bytes of the signer carrying header
`c8H2` differ between the runs `[c8S1, c8S2]` and `[c8S2, c8S1]` even
though the base document, that signer's own header and the computed
global-header set are identical in both runs.  The signing loop mutates
the one shared reserved-field object in place (sign.js lines 88-92): the
"signers" entry it accumulates changes which fields the later signers'
`omit` drops, so the bytes are not computed from an independent
per-signer scratch value and are not a function of (base document, own
header, global headers). -/
theorem sign_snapshot_depends_on_signer_position :
    computeGlobalHeaders [c8H1, c8H2] = computeGlobalHeaders [c8H2, c8H1] ∧
    (signRun c8Doc [.ok c8S1, .ok c8S2]).snapshots[1]?
      ≠ (signRun c8Doc [.ok c8S2, .ok c8S1]).snapshots[0]? := by
  exact ⟨by decide, by decide⟩

/-- C8 amended: provided no signer header carries a field literally named
"signers", each signer's serialized snapshot is determined solely by the
immutable base document, that signer's own header, and the global-header
set — the in-place rewriting of the shared document between suspension
points then has no cross-signer effect (and the single-signer form
depends on the base document and the header alone). -/
theorem sign_snapshots_pure_without_signers_field :
    ∀ (fs : List (String × JVal)) (signatories : List (Except String Sig))
      (resolved : List Sig),
    seqSigs signatories = .ok resolved →
    (∀ hdr ∈ resolved.map Sig.header, "signers" ∉ jkeys hdr) →
    (signRun (.obj fs) signatories).snapshots =
      match resolved with
      | [s] => [signSnapSingle (jset fs csigField (.obj [])) s.header]
      | sigs => sigs.map (fun s =>
          pureSnapMulti (jset fs csigField (.obj []))
            (computeGlobalHeaders (sigs.map Sig.header)) s.header) := by
  intro fs signatories resolved hres hhdr
  simp only [signRun, hres]
  rcases resolved with _ | ⟨s, rest⟩
  · simp [signRunResolved, signRunMulti, signMultiLoop]
  · rcases rest with _ | ⟨s2, rest2⟩
    · simp only [signRunResolved, signRunSingle]
      cases hE : s.key.signFn (hdrAlg s.header)
          ((signSnapSingle (jset fs csigField (.obj [])) s.header).stringify) <;>
        simp [hE]
    · simp only [signRunResolved, signRunMulti]
      have hgh0 : "signers"
          ∉ jkeys (computeGlobalHeaders ((s :: s2 :: rest2).map Sig.header)) := by
        intro hmem
        have h1 := mem_jkeys_computeGlobalHeaders _ _ hmem
        have h2 := mem_intersectKeys_head (jkeys s.header)
          (((s2 :: rest2).map Sig.header).map jkeys) "signers" h1
        exact hhdr s.header (by simp) h2
      have hpure := signMultiLoop_snaps_pure (jset fs csigField (.obj []))
        (computeGlobalHeaders ((s :: s2 :: rest2).map Sig.header)) hgh0
        (s :: s2 :: rest2)
        { gh := computeGlobalHeaders ((s :: s2 :: rest2).map Sig.header)
          snaps := [], calls := [], stored := .ok [] }
        (Or.inl rfl)
        (fun sx hx => hhdr sx.header (List.mem_map_of_mem Sig.header hx))
      cases hE : (signMultiLoop (jset fs csigField (.obj [])) (s :: s2 :: rest2)
          { gh := computeGlobalHeaders ((s :: s2 :: rest2).map Sig.header)
            snaps := [], calls := [], stored := .ok [] }).stored <;>
        simp only [hE] <;> simpa using hpure

/-- The two like-headed signatories of the C8 witness. -/
def c8WSig : Sig := { header := [("alg", .str "HS256"), ("kid", .str "X")], key := demoKey }

/-- The C8 witness signatory list. -/
def c8WSigs : List (Except String Sig) := [.ok c8WSig, .ok c8WSig]

/-- C8 witness: the amended statement applied to a concrete two-signatory
run whose headers carry no "signers" field. -/
theorem sign_snapshots_pure_without_signers_field_witness :
    (signRun (.obj [("m", .str "x")]) c8WSigs).snapshots
      = [c8WSig, c8WSig].map (fun s =>
          pureSnapMulti (jset [("m", .str "x")] csigField (.obj []))
            (computeGlobalHeaders ([c8WSig, c8WSig].map Sig.header)) s.header) :=
  sign_snapshots_pure_without_signers_field [("m", .str "x")] c8WSigs
    [c8WSig, c8WSig] rfl (by decide)

/-! ## C9 — symmetric keys are never embedded -/

/-- C9: requesting full `jwk` embedding for a symmetric (`oct`) key makes
signatory resolution reject with "cannot embed key" before any key
material is written into a header (sign.js lines 225-229 return before
the `header.jwk` assignment), and a signatory list whose resolution
rejected produces no `key.sign` invocation at all: `JWSSigner.sign`
rejects with that error before the signing phase runs. -/
theorem symmetric_jwk_embedding_rejected_before_signing :
    (∀ (key : Key) (header : List (String × JVal)), key.kty = "oct" →
      resolveReference key header (.field "jwk") = .error "cannot embed key") ∧
    (∀ (fs : List (String × JVal)) (signatories : List (Except String Sig)) (e : String),
      seqSigs signatories = .error e →
      (signRun (.obj fs) signatories).result = .error e ∧
      (signRun (.obj fs) signatories).signCalls = []) := by
  constructor
  · intro key header h
    simp [resolveReference, h]
  · intro fs signatories e h
    constructor <;> simp [signRun, h]

/-- C9 witness: the statement applied to the symmetric `demoKey` and to a
signatory list holding that rejection. -/
theorem symmetric_jwk_embedding_rejected_before_signing_witness :
    resolveReference demoKey [("alg", .str "HS256")] (.field "jwk")
      = .error "cannot embed key" ∧
    (signRun (.obj [("m", .str "x")]) [.error "cannot embed key"]).signCalls = [] :=
  ⟨symmetric_jwk_embedding_rejected_before_signing.1 demoKey [("alg", .str "HS256")] rfl,
   (symmetric_jwk_embedding_rejected_before_signing.2 [("m", .str "x")]
      [.error "cannot embed key"] "cannot embed key" rfl).2⟩

/-! ## C10 — per-instance verifier configuration -/

/-- C10: the claim states constructing one verifier with options leaves
every other instance's effective defaults unchanged.  `merge(DEFAULT_OPTIONS,
globalOpts)` at verify.js line 61 mutates the module-level defaults
object, so after one verifier is constructed with
`allowEmbeddedKey: true`, a second verifier constructed with no options
at all inherits `allowEmbeddedKey: true`; the per-call merge of line 74
does give per-call options precedence as claimed. -/
theorem verifier_construction_mutates_module_defaults :
    (mkVerifierOpts DEFAULT_OPTIONS [("allowEmbeddedKey", .bool true)]).2
      ≠ DEFAULT_OPTIONS ∧
    jget (mkVerifierOpts
        (mkVerifierOpts DEFAULT_OPTIONS [("allowEmbeddedKey", .bool true)]).2 []).1
      "allowEmbeddedKey" = some (.bool true) ∧
    jget DEFAULT_OPTIONS "allowEmbeddedKey" = some (.bool false) ∧
    jget (mergeObjs (mergeObjs [] DEFAULT_OPTIONS) [("algorithms", .str "HS256")])
      "algorithms" = some (.str "HS256") := by
  exact ⟨by decide, by decide, by decide, by decide⟩
